import Mathlib

set_option linter.unusedVariables false

/-!
Verification of `scripts/run_model_ollama.py`: a shallow embedding of the
daemon client (`OllamaClient`), the local-file registrar, the setup
resolver, the two generation functions, the interactive loop, and the
entry point's GGUF-path discovery, together with theorems settling the
frozen claims about them.

Python exceptions are modelled with `Except`; a Python value that may be
`True`, `False` or `None` is modelled as `Option Bool` (`none` = `None`).
Strings and lists are modelled directly; floats are modelled as rationals
(the clamping claims involve only exact comparisons and min/max).
-/

namespace RunModelOllama

/-- Exceptions that can escape the embedded fragments: a `json.JSONDecodeError`
(a `ValueError`, not a `requests.exceptions.RequestException`, hence not caught
by the client's handlers) and a `KeyError` from subscripting a dict that lacks
the expected key. -/
inductive PyExc where
  | jsonDecode
  | keyErr
deriving DecidableEq, Repr

/-- Python truthiness of an optional string argument (`if gguf_path:`):
`None` and the empty string are falsy. -/
def truthyOpt : Option String → Bool
  | none => false
  | some s => !(s == "")

/-- `posixpath.basename`: the suffix of the path after the last slash. -/
def basename (p : String) : String :=
  String.mk ((p.toList.reverse.takeWhile (fun c => c ≠ '/')).reverse)

/-- `posixpath.dirname`: the prefix of the path up to and including the last
slash, with trailing slashes stripped unless the head is all slashes. -/
def dirname (p : String) : String :=
  let head := (p.toList.reverse.dropWhile (fun c => c ≠ '/')).reverse
  if head.isEmpty then ""
  else if head.all (fun c => c == '/') then String.mk head
  else String.mk ((head.reverse.dropWhile (fun c => c == '/')).reverse)

/-- `sub` occurs at the start of `cs` (Python `s.startswith` on char
lists). -/
def hasPre : List Char → List Char → Bool
  | _, [] => true
  | [], _ :: _ => false
  | c :: cs, d :: ds => c == d && hasPre cs ds

/-- `sub in s` on char lists: `sub` occurs contiguously in `cs`. -/
def hasSub : List Char → List Char → Bool
  | cs, sub =>
    if hasPre cs sub then true
    else
      match cs with
      | [] => false
      | _ :: rest => hasSub rest sub

/-- Python `s.startswith(pre)`. -/
def strStarts (s pre : String) : Bool := hasPre s.toList pre.toList

/-- Python `s.endswith(suf)`. -/
def strEnds (s suf : String) : Bool := hasPre s.toList.reverse suf.toList.reverse

/-- `posixpath.join` restricted to two components, as used by the script. -/
def pathJoin (a b : String) : String :=
  if strStarts b "/" then b
  else if a == "" || strEnds a "/" then a ++ b
  else a ++ "/" ++ b

/-! ## Daemon client (`OllamaClient`) -/

/-- Outcome of the `GET /api/tags` probe made by `check_ollama_running`:
either the request raises a `RequestException` (timeout included) or a
response with some status code arrives. -/
inductive PingHttp where
  | transportFail
  | resp (status : Nat)
deriving DecidableEq, Repr

/-- `OllamaClient.check_ollama_running`: `True` iff the probe returns
status 200; any transport failure yields `False`. -/
def check_ollama_running : PingHttp → Bool
  | PingHttp.transportFail => false
  | PingHttp.resp status => status == 200

/-- Outcome of the `GET /api/tags` call made by `list_models`. The body's
`models` list is modelled already JSON-parsed; each entry is `some name`
when the model dict carries a `"name"` key and `none` when it does not
(subscripting then raises `KeyError`). A missing `models` key behaves as
the empty list (`response.json().get("models", [])`). -/
inductive TagsHttp where
  | transportFail
  | resp (status : Nat) (models : List (Option String))
deriving DecidableEq, Repr

/-- The list comprehension `[model["name"] for model in models]`:
raises `KeyError` at the first entry lacking a `"name"` key. -/
def extractNames : List (Option String) → Except PyExc (List String)
  | [] => Except.ok []
  | none :: _ => Except.error PyExc.keyErr
  | some n :: rest => (extractNames rest).map (fun ns => n :: ns)

/-- `OllamaClient.list_models`: on a 200 response returns the listed names,
on any other status returns `[]`, on a transport failure (caught
`RequestException`) logs and returns `[]`. A `KeyError` raised while
extracting names is not a `RequestException` and escapes to the caller. -/
def list_models : TagsHttp → Except PyExc (List String)
  | TagsHttp.transportFail => Except.ok []
  | TagsHttp.resp status models =>
      if status == 200 then extractNames models
      else Except.ok []

/-- One line of the streamed newline-delimited JSON body consumed by
`pull_model` / `create_custom_model` (empty lines, skipped by `if line:`,
are not represented):
* `malformed` — `json.loads` raises `JSONDecodeError`;
* `event hasStatus hasCompleted` — a parsed JSON object, with flags for
  the presence of the `"status"` and `"completed_at"` keys;
* `transportBreak` — `iter_lines` itself raises a `RequestException`
  mid-stream (caught by the handler). -/
inductive StreamLine where
  | malformed
  | event (hasStatus : Bool) (hasCompleted : Bool)
  | transportBreak
deriving DecidableEq, Repr

/-- Outcome of the streaming POST made by `pull_model` /
`create_custom_model`. -/
inductive StreamHttp where
  | transportFail
  | resp (status : Nat) (lines : List StreamLine)
deriving DecidableEq, Repr

/-- The `for line in response.iter_lines():` loop shared verbatim by
`pull_model` and `create_custom_model`: a line with a `"status"` key prints
and continues; otherwise a line with a `"completed_at"` key returns `True`;
any other parsed line continues; falling off the loop returns `None`
(the Python function body ends without a `return`). A malformed line
raises `JSONDecodeError` (uncaught); a mid-stream transport failure is
caught by the surrounding handler, which returns `False`. -/
def consumeStream : List StreamLine → Except PyExc (Option Bool)
  | [] => Except.ok none
  | StreamLine.malformed :: _ => Except.error PyExc.jsonDecode
  | StreamLine.transportBreak :: _ => Except.ok (some false)
  | StreamLine.event hasStatus hasCompleted :: rest =>
      if hasStatus then consumeStream rest
      else if hasCompleted then Except.ok (some true)
      else consumeStream rest

/-- `OllamaClient.pull_model`: streams `POST /api/pull`; non-200 status or
transport failure yields `False`; otherwise the stream is consumed by the
shared loop. -/
def pull_model : StreamHttp → Except PyExc (Option Bool)
  | StreamHttp.transportFail => Except.ok (some false)
  | StreamHttp.resp status lines =>
      if status == 200 then consumeStream lines
      else Except.ok (some false)

/-- `OllamaClient.create_custom_model`: streams `POST /api/create` with a
synthesized Modelfile body; the response handling is line-for-line the
same as `pull_model`. -/
def create_custom_model : StreamHttp → Except PyExc (Option Bool)
  | StreamHttp.transportFail => Except.ok (some false)
  | StreamHttp.resp status lines =>
      if status == 200 then consumeStream lines
      else Except.ok (some false)

/-! ## Local-file registrar (`register_gguf_model`) -/

/-- Effects and result of `register_gguf_model`. `wrote` lists the files
written as `(path, content)` pairs; `ranCreate` records whether the
`ollama create` subprocess was invoked. -/
structure RegisterOutcome where
  ok : Bool
  wrote : List (String × String)
  ranCreate : Bool
deriving DecidableEq, Repr

/-- `register_gguf_model fs createCmdOk model_folder gguf_filename model_name`:
`fs` is the set of paths for which `os.path.isfile` holds, `createCmdOk`
whether the `ollama create` subprocess exits successfully. The function
validates the GGUF path, writes `Modelfile` (content `FROM ./<filename>`
plus newline) into the folder, then runs the subprocess; a
`CalledProcessError` is caught and yields `False` after the write. -/
def register_gguf_model (fs : List String) (createCmdOk : Bool)
    (model_folder gguf_filename model_name : String) : RegisterOutcome :=
  let gguf_path := pathJoin model_folder gguf_filename
  let modelfile_path := pathJoin model_folder "Modelfile"
  if !(fs.contains gguf_path) then
    { ok := false, wrote := [], ranCreate := false }
  else
    let content := "FROM ./" ++ gguf_filename ++ "\n"
    { ok := createCmdOk, wrote := [(modelfile_path, content)], ranCreate := true }

/-! ## Setup resolver (`check_and_setup_model`) -/

/-- The daemon-side and system-side behaviour a single resolver run can
observe: the liveness probe, the tags listing, the responses to a pull
or create call were one made, the filesystem, and the subprocess result. -/
structure DaemonEnv where
  ping : PingHttp
  tags : TagsHttp
  pullR : StreamHttp
  createR : StreamHttp
  fs : List String
  createCmdOk : Bool
deriving Repr

/-- A mutation call the resolver can make. -/
inductive SetupCall where
  | pullCall (name : String)
  | createCall (name hf : String)
  | registerCall (folder file name : String)
deriving DecidableEq, Repr

/-- Trace of one `check_and_setup_model` run: the Python return value
(`True` / `False` / `None`, or an escaped exception) together with the
mutation calls made and the files written. -/
structure SetupOutcome where
  result : Except PyExc (Option Bool)
  calls : List SetupCall
  wrote : List (String × String)
deriving Repr

/-- `check_and_setup_model`: fail if the daemon is unreachable; succeed
with no further action if the name is listed; else register a truthy
local GGUF path; else create from a truthy Hugging Face reference; else
attempt a registry pull. A `KeyError` escaping `list_models` propagates
(the resolver has no handler). -/
def check_and_setup_model (env : DaemonEnv) (model_name : String)
    (huggingface_model gguf_path : Option String) : SetupOutcome :=
  if !(check_ollama_running env.ping) then
    { result := Except.ok (some false), calls := [], wrote := [] }
  else
    match list_models env.tags with
    | Except.error e => { result := Except.error e, calls := [], wrote := [] }
    | Except.ok available_models =>
      if available_models.contains model_name then
        { result := Except.ok (some true), calls := [], wrote := [] }
      else if truthyOpt gguf_path then
        let p := gguf_path.getD ""
        let model_folder := dirname p
        let gguf_filename := basename p
        let r := register_gguf_model env.fs env.createCmdOk model_folder gguf_filename model_name
        { result := Except.ok (some r.ok),
          calls := [SetupCall.registerCall model_folder gguf_filename model_name],
          wrote := r.wrote }
      else if truthyOpt huggingface_model then
        { result := create_custom_model env.createR,
          calls := [SetupCall.createCall model_name (huggingface_model.getD "")],
          wrote := [] }
      else
        { result := pull_model env.pullR,
          calls := [SetupCall.pullCall model_name],
          wrote := [] }

/-! ## Generation functions -/

/-- The options dict passed to `ollama.chat` by both generation
functions. -/
structure ChatOptions where
  temperature : ℚ
  num_predict : ℤ
  top_p : ℚ
  top_k : ℤ
  repeat_penalty : ℚ
deriving DecidableEq, Repr

/-- One message of the `messages` list. -/
structure ChatMessage where
  role : String
  content : String
deriving DecidableEq, Repr

/-- The call shape sent to `ollama.chat`. -/
structure ChatRequest where
  model : String
  messages : List ChatMessage
  options : ChatOptions
  stream : Bool
deriving DecidableEq, Repr

/-- The daemon's structured single-shot reply: `message` may lack the
`"message"` key and its value may lack `"content"` (subscripting then
raises `KeyError`, which the broad handler catches). -/
structure ChatReplyMessage where
  content : Option String
deriving DecidableEq, Repr

structure ChatReply where
  message : Option ChatReplyMessage
deriving DecidableEq, Repr

/-- Trace of one `generate_text_ollama_lib` run: the request it sent and
the Python return value (`None` on any caught exception). -/
structure GenTrace where
  request : ChatRequest
  result : Option String
deriving DecidableEq, Repr

/-- `generate_text_ollama_lib`, parametrised by the behaviour `chat` of
`ollama.chat`: builds the request with clamped options, extracts
`response["message"]["content"]`; any exception (transport or `KeyError`)
is caught by the broad handler, logged, and turned into `None`. -/
def generate_text_ollama_lib (chat : ChatRequest → Except PyExc ChatReply)
    (model_name prompt : String) (max_length : ℤ) (temperature : ℚ) : GenTrace :=
  let req : ChatRequest :=
    { model := model_name,
      messages := [{ role := "user", content := prompt }],
      options :=
        { temperature := max (1/10 : ℚ) (min 2 temperature),
          num_predict := min max_length 2048,
          top_p := 9/10, top_k := 50, repeat_penalty := 11/10 },
      stream := false }
  { request := req,
    result :=
      match chat req with
      | Except.error _ => none
      | Except.ok reply =>
          match reply.message with
          | none => none
          | some msg =>
              match msg.content with
              | none => none
              | some c => some c }

/-- One item of the streamed reply sequence: a chunk whose
`chunk["message"]["content"]` is present (`some c`) or missing (`none`,
raising `KeyError` mid-loop), or the stream raising an exception. -/
inductive StreamChunk where
  | chunk (content : Option String)
  | exn (e : PyExc)
deriving DecidableEq, Repr

/-- Trace of one `generate_text_streaming_ollama_lib` run: the request,
the content fragments printed (in print order), and the return value. -/
structure StreamTrace where
  request : ChatRequest
  printedFragments : List String
  result : Option String
deriving DecidableEq, Repr

/-- The `for chunk in ollama.chat(..., stream=True):` loop: each chunk's
content is printed and appended to the accumulator; an exception raised by
the stream or by subscripting a malformed chunk aborts the loop, is caught
by the broad handler, and yields `None` (fragments already printed stay
printed). `printedRev` holds the fragments printed so far, newest first. -/
def streamLoop : List StreamChunk → String → List String → List String × Option String
  | [], full_response, printedRev => (printedRev.reverse, some full_response)
  | StreamChunk.exn _ :: _, _, printedRev => (printedRev.reverse, none)
  | StreamChunk.chunk none :: _, _, printedRev => (printedRev.reverse, none)
  | StreamChunk.chunk (some c) :: rest, full_response, printedRev =>
      streamLoop rest (full_response ++ c) (c :: printedRev)

/-- `generate_text_streaming_ollama_lib`, parametrised by the behaviour
`chat` of the streaming `ollama.chat` call: same clamped options as the
single-shot function, `stream := true`; consumes the chunk sequence with
`streamLoop` starting from the empty accumulator. -/
def generate_text_streaming_ollama_lib (chat : ChatRequest → List StreamChunk)
    (model_name prompt : String) (max_length : ℤ) (temperature : ℚ) : StreamTrace :=
  let req : ChatRequest :=
    { model := model_name,
      messages := [{ role := "user", content := prompt }],
      options :=
        { temperature := max (1/10 : ℚ) (min 2 temperature),
          num_predict := min max_length 2048,
          top_p := 9/10, top_k := 50, repeat_penalty := 11/10 },
      stream := true }
  let r := streamLoop (chat req) "" []
  { request := req, printedFragments := r.1, result := r.2 }

/-! ## Interactive loop (`interactive_mode`) -/

/-- Observable events of one pass of the interactive loop (print calls and
generation calls; the banner printed before the loop is not an event of
the loop itself). -/
inductive LoopEvent where
  | printHelp
  | printGoodbye
  | printClear
  | genCall (prompt : String)
  | genFailMsg
deriving DecidableEq, Repr

/-- Python `str.strip()` (whitespace at both ends removed; the ASCII
fragment relevant here). -/
def pyStrip (s : String) : String :=
  String.mk (((s.toList.dropWhile Char.isWhitespace).reverse.dropWhile Char.isWhitespace).reverse)

/-- Python `str.lower()` (the ASCII fragment relevant here). -/
def pyLower (s : String) : String :=
  String.mk (s.toList.map Char.toLower)

/-- The body of `interactive_mode`'s `while True:` loop, run over a finite
script of operator input lines (`gen` is the behaviour of
`generate_text_streaming_ollama_lib model_name ·`). Input is stripped;
dispatch compares the lowered text against `quit` / `help` / `clear`;
an empty stripped line is skipped; anything else is forwarded to streaming
generation, and a falsy result (`None` or the empty string) prints a
failure message. `quit` prints the farewell and breaks. -/
def interactive_loop (gen : String → Option String) : List String → List LoopEvent
  | [] => []
  | line :: rest =>
    let user_input := pyStrip line
    if pyLower user_input == "quit" then [LoopEvent.printGoodbye]
    else if pyLower user_input == "help" then
      LoopEvent.printHelp :: interactive_loop gen rest
    else if pyLower user_input == "clear" then
      LoopEvent.printClear :: interactive_loop gen rest
    else if user_input == "" then interactive_loop gen rest
    else
      let response := gen user_input
      LoopEvent.genCall user_input ::
        ((if response = none ∨ response = some "" then [LoopEvent.genFailMsg] else []) ++
          interactive_loop gen rest)

/-! ## Entry point: GGUF-path discovery (`main`, lines 372–381) -/

/-- The hard-coded default of the `--model` flag. -/
def defaultModel : String := "gemma-3-4b-it-qat-abliterated"

/-- `find_gguf_files`: if the directory exists, walk it (`walk` models the
`os.walk` output as `(root, files)` pairs, directories flattened away) and
collect `os.path.join(root, file)` for every file name ending in
`.gguf`. -/
def find_gguf_files (dirExists : Bool) (walk : List (String × List String)) : List String :=
  if !dirExists then []
  else
    (walk.map (fun rf =>
      (rf.2.filter (fun f => strEnds f ".gguf")).map (fun f => pathJoin rf.1 f))).flatten

/-- The membership test of `main`'s discovery loop:
`"gemma-3-4b-it-qat-abliterated" in gguf_file`. -/
def matchesDefault (gguf_file : String) : Bool :=
  hasSub gguf_file.toList defaultModel.toList

/-- The GGUF-path resolution slice of `main`: if the `--gguf-path` argument
is falsy and the model is the hard-coded default, search the models
directory and take the first discovered file whose path contains the
default model name (`break` on first match); otherwise keep the argument
untouched. Returns the resolved path and whether the search ran. -/
def resolveGgufPath (gguf_arg : Option String) (model : String)
    (dirExists : Bool) (walk : List (String × List String)) : Option String × Bool :=
  if truthyOpt gguf_arg then (gguf_arg, false)
  else if model == defaultModel then
    let gguf_files := find_gguf_files dirExists walk
    match gguf_files.find? matchesDefault with
    | some f => (some f, true)
    | none => (gguf_arg, true)
  else (gguf_arg, false)

/-! ## Theorems settling the claims -/

/-- **C3.** For every model name present in the daemon's listing when the
resolver runs with the daemon reachable, `check_and_setup_model` returns
success and performs no mutation calls (no pull, no create, no local
registration) and writes nothing. -/
theorem setup_present_model_no_mutation
    (env : DaemonEnv) (model_name : String) (huggingface_model gguf_path : Option String)
    (avail : List String)
    (hrun : check_ollama_running env.ping = true)
    (hlist : list_models env.tags = Except.ok avail)
    (hmem : avail.contains model_name = true) :
    check_and_setup_model env model_name huggingface_model gguf_path =
      { result := Except.ok (some true), calls := [], wrote := [] } := by
  have hmem' : model_name ∈ avail := by simpa using hmem
  simp [check_and_setup_model, hrun, hlist, hmem']

/-- Witness for C3: with the daemon up, listing `["x"]`, model `"x"`,
the resolver returns success with zero calls. -/
theorem setup_present_model_no_mutation_witness :
    check_and_setup_model
      { ping := PingHttp.resp 200, tags := TagsHttp.resp 200 [some "x"],
        pullR := StreamHttp.transportFail, createR := StreamHttp.transportFail,
        fs := [], createCmdOk := false } "x" none none =
      { result := Except.ok (some true), calls := [], wrote := [] } :=
  setup_present_model_no_mutation
    { ping := PingHttp.resp 200, tags := TagsHttp.resp 200 [some "x"],
      pullR := StreamHttp.transportFail, createR := StreamHttp.transportFail,
      fs := [], createCmdOk := false } "x" none none ["x"] rfl rfl rfl

/-- **C1.** When the daemon is reachable and the requested name is absent
from the listing, `check_and_setup_model` picks the acquisition path in
strict priority order, first match winning: a truthy local GGUF path leads
to local registration; otherwise a truthy Hugging Face reference leads to
custom-model creation; otherwise a registry pull is attempted for the
requested name. -/
theorem check_and_setup_priority_order
    (env : DaemonEnv) (model_name : String) (huggingface_model gguf_path : Option String)
    (avail : List String)
    (hrun : check_ollama_running env.ping = true)
    (hlist : list_models env.tags = Except.ok avail)
    (habs : avail.contains model_name = false) :
    (truthyOpt gguf_path = true →
      (check_and_setup_model env model_name huggingface_model gguf_path).calls =
        [SetupCall.registerCall (dirname (gguf_path.getD "")) (basename (gguf_path.getD ""))
          model_name]) ∧
    (truthyOpt gguf_path = false → truthyOpt huggingface_model = true →
      (check_and_setup_model env model_name huggingface_model gguf_path).calls =
        [SetupCall.createCall model_name (huggingface_model.getD "")] ∧
      (check_and_setup_model env model_name huggingface_model gguf_path).result =
        create_custom_model env.createR) ∧
    (truthyOpt gguf_path = false → truthyOpt huggingface_model = false →
      (check_and_setup_model env model_name huggingface_model gguf_path).calls =
        [SetupCall.pullCall model_name] ∧
      (check_and_setup_model env model_name huggingface_model gguf_path).result =
        pull_model env.pullR) := by
  have habs' : model_name ∉ avail := by simpa using habs
  refine ⟨fun h1 => ?_, fun h1 h2 => ?_, fun h1 h2 => ?_⟩
  · simp [check_and_setup_model, hrun, hlist, habs', h1]
  · simp [check_and_setup_model, hrun, hlist, habs', h1, h2]
  · simp [check_and_setup_model, hrun, hlist, habs', h1, h2]

/-- Witness for C1 (the claim's particular case): no local file, no remote
reference, empty listing — the resolver falls through to a pull attempt
for the requested name. -/
theorem check_and_setup_priority_order_witness :
    truthyOpt (none : Option String) = false ∧
    (check_and_setup_model
      { ping := PingHttp.resp 200, tags := TagsHttp.resp 200 [],
        pullR := StreamHttp.transportFail, createR := StreamHttp.transportFail,
        fs := [], createCmdOk := false } "y" none none).calls =
      [SetupCall.pullCall "y"] :=
  ⟨rfl,
    ((check_and_setup_priority_order
      { ping := PingHttp.resp 200, tags := TagsHttp.resp 200 [],
        pullR := StreamHttp.transportFail, createR := StreamHttp.transportFail,
        fs := [], createCmdOk := false } "y" none none [] rfl rfl rfl).2.2 rfl rfl).1⟩

/-- **C6.** For every existing local GGUF file path handed to the
resolver's registration branch, the Modelfile written into the path's
containing directory is exactly `FROM ./<basename>` plus newline — a
source line referencing the file's base name regardless of the directory
depth of the supplied path. (Stated both through the resolver, which
splits the path, and on `register_gguf_model` directly.) -/
theorem register_modelfile_from_basename
    (env : DaemonEnv) (model_name : String) (huggingface_model : Option String)
    (p : String) (avail : List String)
    (hrun : check_ollama_running env.ping = true)
    (hlist : list_models env.tags = Except.ok avail)
    (habs : avail.contains model_name = false)
    (hp : p ≠ "")
    (hfile : env.fs.contains (pathJoin (dirname p) (basename p)) = true) :
    (check_and_setup_model env model_name huggingface_model (some p)).wrote =
      [(pathJoin (dirname p) "Modelfile", "FROM ./" ++ basename p ++ "\n")] ∧
    (register_gguf_model env.fs env.createCmdOk (dirname p) (basename p) model_name).wrote =
      [(pathJoin (dirname p) "Modelfile", "FROM ./" ++ basename p ++ "\n")] := by
  have habs' : model_name ∉ avail := by simpa using habs
  have htr : truthyOpt (some p) = true := by
    simp [truthyOpt, hp]
  have hfile' : pathJoin (dirname p) (basename p) ∈ env.fs := by simpa using hfile
  constructor
  · simp [check_and_setup_model, hrun, hlist, habs', htr, register_gguf_model, hfile']
  · simp [register_gguf_model, hfile']

/-- Witness for C6: a depth-two path; the Modelfile content names the base
name only. -/
theorem register_modelfile_from_basename_witness :
    (check_and_setup_model
      { ping := PingHttp.resp 200, tags := TagsHttp.resp 200 [],
        pullR := StreamHttp.transportFail, createR := StreamHttp.transportFail,
        fs := ["models/sub/foo.gguf"], createCmdOk := true } "m" none
      (some "models/sub/foo.gguf")).wrote =
      [("models/sub/Modelfile", "FROM ./foo.gguf\n")] := by
  have h := register_modelfile_from_basename
    { ping := PingHttp.resp 200, tags := TagsHttp.resp 200 [],
      pullR := StreamHttp.transportFail, createR := StreamHttp.transportFail,
      fs := ["models/sub/foo.gguf"], createCmdOk := true } "m" none
    "models/sub/foo.gguf" [] rfl rfl rfl (by decide) (by decide)
  exact h.1.trans (by decide)

/-- **C2.** Both generation functions send downstream the same options:
a temperature equal to the input clamped into the closed interval
`[0.1, 2.0]` and a length cap (`num_predict`) equal to the input
`max_length` capped at `2048`; the request is always constructed for
every input (clamped, never rejected). -/
theorem generation_clamps_options
    (chat : ChatRequest → Except PyExc ChatReply)
    (chatS : ChatRequest → List StreamChunk)
    (model_name prompt : String) (max_length : ℤ) (temperature : ℚ) :
    ((generate_text_ollama_lib chat model_name prompt max_length temperature).request.options
      = (generate_text_streaming_ollama_lib chatS model_name prompt max_length
          temperature).request.options) ∧
    (let sent :=
      (generate_text_ollama_lib chat model_name prompt max_length
        temperature).request.options
     ((1/10 : ℚ) ≤ sent.temperature ∧ sent.temperature ≤ 2) ∧
     (temperature < 1/10 → sent.temperature = 1/10) ∧
     (2 < temperature → sent.temperature = 2) ∧
     (1/10 ≤ temperature → temperature ≤ 2 → sent.temperature = temperature) ∧
     sent.num_predict ≤ 2048 ∧
     (2048 < max_length → sent.num_predict = 2048) ∧
     (max_length ≤ 2048 → sent.num_predict = max_length)) := by
  refine ⟨rfl, ⟨le_max_left _ _, max_le (by norm_num) (min_le_left _ _)⟩,
    fun h1 => ?_, fun h1 => ?_, fun h1 h2 => ?_,
    min_le_right _ _, fun h1 => ?_, fun h1 => ?_⟩
  · show max (1/10 : ℚ) (min 2 temperature) = 1/10
    rw [min_eq_right (by linarith : temperature ≤ (2:ℚ))]
    exact max_eq_left (by linarith)
  · show max (1/10 : ℚ) (min 2 temperature) = 2
    rw [min_eq_left (by linarith : (2:ℚ) ≤ temperature)]
    exact max_eq_right (by norm_num)
  · show max (1/10 : ℚ) (min 2 temperature) = temperature
    rw [min_eq_right h2]
    exact max_eq_right h1
  · show min max_length 2048 = 2048
    exact min_eq_right (by linarith)
  · show min max_length 2048 = max_length
    exact min_eq_left h1

/-- Witness for C2: temperature `5` is sent as `2`, temperature `1/100`
as `1/10`, and `max_length = 5000` is sent as `2048`. -/
theorem generation_clamps_options_witness :
    (generate_text_ollama_lib (fun _ => Except.ok { message := none }) "m" "p" 5000
      5).request.options.temperature = 2 ∧
    (generate_text_ollama_lib (fun _ => Except.ok { message := none }) "m" "p" 5000
      (1/100)).request.options.temperature = 1/10 ∧
    (generate_text_ollama_lib (fun _ => Except.ok { message := none }) "m" "p" 5000
      5).request.options.num_predict = 2048 :=
  ⟨(generation_clamps_options (fun _ => Except.ok { message := none })
      (fun _ => []) "m" "p" 5000 5).2.2.2.1 (by norm_num),
   (generation_clamps_options (fun _ => Except.ok { message := none })
      (fun _ => []) "m" "p" 5000 (1/100)).2.2.1 (by norm_num),
   (generation_clamps_options (fun _ => Except.ok { message := none })
      (fun _ => []) "m" "p" 5000 5).2.2.2.2.2.2.1 (by norm_num)⟩

/-- **C7.** `generate_text_ollama_lib` never propagates an exception (its
embedding is total, the broad handler catching every modelled exception):
if the chat call raises, the result is `None`; if the call succeeds and
the structured reply carries `message.content`, the result is exactly
that full reply text; missing keys in the reply (a `KeyError` inside the
`try`) also yield `None`. -/
theorem single_shot_none_on_exception
    (chat : ChatRequest → Except PyExc ChatReply)
    (model_name prompt : String) (max_length : ℤ) (temperature : ℚ) :
    (∀ e, chat (generate_text_ollama_lib chat model_name prompt max_length
        temperature).request = Except.error e →
      (generate_text_ollama_lib chat model_name prompt max_length temperature).result =
        none) ∧
    (∀ reply msg c,
      chat (generate_text_ollama_lib chat model_name prompt max_length
        temperature).request = Except.ok reply →
      reply.message = some msg → msg.content = some c →
      (generate_text_ollama_lib chat model_name prompt max_length temperature).result =
        some c) ∧
    (∀ reply,
      chat (generate_text_ollama_lib chat model_name prompt max_length
        temperature).request = Except.ok reply →
      reply.message = none →
      (generate_text_ollama_lib chat model_name prompt max_length temperature).result =
        none) ∧
    (∀ reply msg,
      chat (generate_text_ollama_lib chat model_name prompt max_length
        temperature).request = Except.ok reply →
      reply.message = some msg → msg.content = none →
      (generate_text_ollama_lib chat model_name prompt max_length temperature).result =
        none) := by
  refine ⟨fun e h => ?_, fun reply msg c h hm hc => ?_, fun reply h hm => ?_,
    fun reply msg h hm hc => ?_⟩
  · simp only [generate_text_ollama_lib] at h ⊢; rw [h]
  · simp only [generate_text_ollama_lib] at h ⊢; rw [h]; simp [hm, hc]
  · simp only [generate_text_ollama_lib] at h ⊢; rw [h]; simp [hm]
  · simp only [generate_text_ollama_lib] at h ⊢; rw [h]; simp [hm, hc]

/-- Witness for C7: a raising chat call yields `None`; a successful call
yields the reply text. -/
theorem single_shot_none_on_exception_witness :
    (generate_text_ollama_lib (fun _ => Except.error PyExc.jsonDecode) "m" "p" 10
      1).result = none ∧
    (generate_text_ollama_lib
      (fun _ => Except.ok { message := some { content := some "hello" } }) "m" "p" 10
      1).result = some "hello" :=
  ⟨(single_shot_none_on_exception (fun _ => Except.error PyExc.jsonDecode) "m" "p" 10
      1).1 PyExc.jsonDecode rfl,
   (single_shot_none_on_exception
      (fun _ => Except.ok { message := some { content := some "hello" } }) "m" "p" 10
      1).2.1 { message := some { content := some "hello" } } { content := some "hello" }
      "hello" rfl rfl rfl⟩

/-- The fragments carried by a well-formed chunk list. -/
def chunkContents (l : List StreamChunk) : List String :=
  l.filterMap fun x =>
    match x with
    | StreamChunk.chunk (some c) => some c
    | _ => none

/-- `streamLoop` on a chunk list free of exceptions and malformed chunks:
every fragment is printed in order and the result is the accumulator
extended by the concatenation of all fragments. -/
theorem streamLoop_clean (l : List StreamChunk)
    (h : ∀ x ∈ l, ∃ c, x = StreamChunk.chunk (some c)) :
    ∀ acc printedRev, streamLoop l acc printedRev =
      (printedRev.reverse ++ chunkContents l,
       some (acc ++ String.join (chunkContents l))) := by
  induction l with
  | nil =>
    intro acc printedRev
    simp [streamLoop, chunkContents, show String.join [] = "" from rfl]
  | cons x rest ih =>
    intro acc printedRev
    obtain ⟨c, rfl⟩ := h x (List.mem_cons_self x rest)
    have ih' := ih (fun y hy => h y (List.mem_cons_of_mem _ hy))
    simp only [streamLoop, ih', chunkContents, List.filterMap_cons, Prod.mk.injEq]
    refine ⟨by simp, ?_⟩
    congr 1
    apply String.ext
    simp

/-- **C4.** For every run of `generate_text_streaming_ollama_lib` in
which the fragment sequence is consumed without an exception (every chunk
is well-formed), the returned full text is exactly the concatenation, in
arrival order, of all fragments the function printed. -/
theorem streaming_result_eq_concat_printed
    (chat : ChatRequest → List StreamChunk)
    (model_name prompt : String) (max_length : ℤ) (temperature : ℚ)
    (h : ∀ req, ∀ x ∈ chat req, ∃ c, x = StreamChunk.chunk (some c)) :
    (generate_text_streaming_ollama_lib chat model_name prompt max_length
      temperature).result =
      some (String.join
        ((generate_text_streaming_ollama_lib chat model_name prompt max_length
          temperature).printedFragments)) := by
  simp only [generate_text_streaming_ollama_lib]
  rw [streamLoop_clean _ (h _)]
  simp

/-- Witness for C4: fragments `"He"`, `"llo"` are printed in order and the
result is `"Hello"`, their concatenation. -/
theorem streaming_result_eq_concat_printed_witness :
    (generate_text_streaming_ollama_lib
      (fun _ => [StreamChunk.chunk (some "He"), StreamChunk.chunk (some "llo")])
      "m" "p" 10 1).result =
      some (String.join
        ((generate_text_streaming_ollama_lib
          (fun _ => [StreamChunk.chunk (some "He"), StreamChunk.chunk (some "llo")])
          "m" "p" 10 1).printedFragments)) :=
  streaming_result_eq_concat_printed
    (fun _ => [StreamChunk.chunk (some "He"), StreamChunk.chunk (some "llo")])
    "m" "p" 10 1
    (fun _ x hx => by
      simp only [List.mem_cons, List.not_mem_nil, or_false] at hx
      rcases hx with rfl | rfl
      · exact ⟨"He", rfl⟩
      · exact ⟨"llo", rfl⟩)

/-- **C8.** The interactive loop on the input script `"help"` then
`"quit"` prints the command list exactly once and then terminates with
the farewell, making zero generation calls — for every generation
behaviour; and an input line that strips to empty is ignored without a
generation call. -/
theorem interactive_help_quit :
    (∀ gen : String → Option String,
      interactive_loop gen ["help", "quit"] =
        [LoopEvent.printHelp, LoopEvent.printGoodbye] ∧
      (interactive_loop gen ["help", "quit"]).countP
        (fun e => match e with | LoopEvent.genCall _ => true | _ => false) = 0 ∧
      (interactive_loop gen ["help", "quit"]).count LoopEvent.printHelp = 1) ∧
    (∀ (gen : String → Option String) (s : String) (rest : List String),
      pyStrip s = "" →
      interactive_loop gen (s :: rest) = interactive_loop gen rest) := by
  constructor
  · intro gen
    refine ⟨rfl, rfl, rfl⟩
  · intro gen s rest h
    conv_lhs => rw [interactive_loop]
    rw [h]
    rfl

/-- Witness for C8: the `"help"`/`"quit"` script with a never-answering
generator, and a whitespace-only line that is skipped. -/
theorem interactive_help_quit_witness :
    interactive_loop (fun _ => none) ["help", "quit"] =
      [LoopEvent.printHelp, LoopEvent.printGoodbye] ∧
    interactive_loop (fun _ => none) [" "] = interactive_loop (fun _ => none) [] :=
  ⟨(interactive_help_quit.1 (fun _ => none)).1,
   interactive_help_quit.2 (fun _ => none) " " [] (by decide)⟩

/-- **C9.** Automatic GGUF discovery runs only when no explicit local
path is supplied and the requested model is the hard-coded default; for
every other model name without an explicit path the entry point performs
no directory search and passes the (falsy) argument through unchanged;
and in the discovery case a discovered file is used only if its path
contains the default model name (and was produced by the directory
walk). -/
theorem gguf_discovery_only_default
    (gguf_arg : Option String) (model : String) (dirExists : Bool)
    (walk : List (String × List String)) :
    (truthyOpt gguf_arg = true →
      resolveGgufPath gguf_arg model dirExists walk = (gguf_arg, false)) ∧
    (truthyOpt gguf_arg = false → model ≠ defaultModel →
      resolveGgufPath gguf_arg model dirExists walk = (gguf_arg, false)) ∧
    ((resolveGgufPath gguf_arg model dirExists walk).2 = true →
      truthyOpt gguf_arg = false ∧ model = defaultModel) ∧
    (truthyOpt gguf_arg = false → model = defaultModel →
      ((resolveGgufPath gguf_arg model dirExists walk).1 = gguf_arg ∨
        ∃ f, (resolveGgufPath gguf_arg model dirExists walk).1 = some f ∧
          hasSub f.toList defaultModel.toList = true ∧
          f ∈ find_gguf_files dirExists walk)) := by
  refine ⟨fun h1 => ?_, fun h1 h2 => ?_, fun hsnd => ?_, fun h1 hm => ?_⟩
  · simp [resolveGgufPath, h1]
  · have hb : (model == defaultModel) = false := beq_eq_false_iff_ne.mpr h2
    simp [resolveGgufPath, h1, hb]
  · by_cases h1 : truthyOpt gguf_arg = true
    · simp [resolveGgufPath, h1] at hsnd
    · have h1' : truthyOpt gguf_arg = false := by simpa using h1
      by_cases hm : model = defaultModel
      · exact ⟨h1', hm⟩
      · have hb : (model == defaultModel) = false := beq_eq_false_iff_ne.mpr hm
        simp [resolveGgufPath, h1', hb] at hsnd
  · subst hm
    cases hfind : (find_gguf_files dirExists walk).find? matchesDefault with
    | none => exact Or.inl (by simp [resolveGgufPath, h1, hfind])
    | some f =>
      refine Or.inr ⟨f, ?_, ?_, ?_⟩
      · simp [resolveGgufPath, h1, hfind]
      · have hp := List.find?_some hfind
        exact hp
      · exact List.mem_of_find?_eq_some hfind

/-- Witness for C9: a non-default model without an explicit path leaves
the argument untouched and triggers no search, even with a GGUF file
present in the walked tree. -/
theorem gguf_discovery_only_default_witness :
    truthyOpt (none : Option String) = false ∧
    resolveGgufPath none "other" true [("d", ["x.gguf"])] = (none, false) :=
  ⟨rfl,
   (gguf_discovery_only_default none "other" true [("d", ["x.gguf"])]).2.1 rfl
     (by decide)⟩

/-- If the shared stream-consuming loop returns `True`, some consumed line
was a parsed event carrying a `completed_at` key (and no `status` key,
which is checked first). -/
theorem consumeStream_true_mem (lines : List StreamLine)
    (h : consumeStream lines = Except.ok (some true)) :
    StreamLine.event false true ∈ lines := by
  induction lines with
  | nil => simp [consumeStream] at h
  | cons x rest ih =>
    cases x with
    | malformed => simp [consumeStream] at h
    | transportBreak => simp [consumeStream] at h
    | event hs hc =>
      cases hs with
      | true =>
        simp only [consumeStream, if_true] at h
        exact List.mem_cons_of_mem _ (ih h)
      | false =>
        cases hc with
        | true => exact List.mem_cons_self _ _
        | false =>
          simp only [consumeStream, if_false] at h
          exact List.mem_cons_of_mem _ (ih (by simpa using h))

/-- On a stream of parsed events none of which carries `completed_at`,
the shared loop falls off the end and returns `None`. -/
theorem consumeStream_none_of_no_completed (lines : List StreamLine)
    (h : ∀ l ∈ lines, ∃ hs, l = StreamLine.event hs false) :
    consumeStream lines = Except.ok none := by
  induction lines with
  | nil => rfl
  | cons x rest ih =>
    obtain ⟨hs, rfl⟩ := h x (List.mem_cons_self x rest)
    have ih' := ih (fun y hy => h y (List.mem_cons_of_mem _ hy))
    cases hs <;> simpa [consumeStream] using ih'

/-- **C10.** For `pull_model` and `create_custom_model`, a `True` return
on a 200 response happens only upon a streamed event containing a
`completed_at` field; and on a 200 response whose stream ends without any
such event, the return value is `None` — falsy, but not the boolean
`False`. -/
theorem stream_true_only_on_completed (lines : List StreamLine) :
    (pull_model (StreamHttp.resp 200 lines) = Except.ok (some true) →
      StreamLine.event false true ∈ lines) ∧
    (create_custom_model (StreamHttp.resp 200 lines) = Except.ok (some true) →
      StreamLine.event false true ∈ lines) ∧
    ((∀ l ∈ lines, ∃ hs, l = StreamLine.event hs false) →
      pull_model (StreamHttp.resp 200 lines) = Except.ok none ∧
      create_custom_model (StreamHttp.resp 200 lines) = Except.ok none ∧
      (Except.ok none : Except PyExc (Option Bool)) ≠ Except.ok (some false)) := by
  refine ⟨fun h => ?_, fun h => ?_, fun h => ⟨?_, ?_, by simp⟩⟩
  · exact consumeStream_true_mem lines (by simpa [pull_model] using h)
  · exact consumeStream_true_mem lines (by simpa [create_custom_model] using h)
  · simpa [pull_model] using consumeStream_none_of_no_completed lines h
  · simpa [create_custom_model] using consumeStream_none_of_no_completed lines h

/-- Witness for C10: a 200 stream of status-only events yields `None` from
both operations. -/
theorem stream_true_only_on_completed_witness :
    pull_model (StreamHttp.resp 200 [StreamLine.event true false]) = Except.ok none ∧
    create_custom_model (StreamHttp.resp 200 [StreamLine.event true false]) =
      Except.ok none :=
  ⟨((stream_true_only_on_completed [StreamLine.event true false]).2.2
      (fun l hl => by
        simp only [List.mem_cons, List.not_mem_nil, or_false] at hl
        exact ⟨true, hl⟩)).1,
   ((stream_true_only_on_completed [StreamLine.event true false]).2.2
      (fun l hl => by
        simp only [List.mem_cons, List.not_mem_nil, or_false] at hl
        exact ⟨true, hl⟩)).2.1⟩

/-- **C5, counterexample.** The claim says the client operations never
raise to the caller, for every daemon behaviour including malformed
streamed payloads. The code catches only `requests` transport exceptions:
on a 200 pull response whose first streamed line is not valid JSON,
`json.loads` raises a decode error that escapes `pull_model`. -/
theorem client_ops_never_raise_cex :
    pull_model (StreamHttp.resp 200 [StreamLine.malformed]) =
      Except.error PyExc.jsonDecode ∧
    create_custom_model (StreamHttp.resp 200 [StreamLine.malformed]) =
      Except.error PyExc.jsonDecode := ⟨rfl, rfl⟩

/-- `extractNames` raises a `KeyError` at the first listing entry with no
`"name"` key, whatever well-formed entries precede it. -/
theorem extractNames_error_of_missing (pre : List String) (rest : List (Option String)) :
    extractNames (pre.map some ++ none :: rest) = Except.error PyExc.keyErr := by
  induction pre with
  | nil => rfl
  | cons n pre ih => simp [extractNames, ih, Except.map]

/-- **C5, amended.** `list_models`, `pull_model` and `create_custom_model`
treat non-200 responses and transport failures (including mid-stream
breaks) as soft failures — logged, falsy result (`[]`, `False`), nothing
retried, nothing raised; but a malformed streamed JSON line makes
`pull_model` / `create_custom_model` raise a decode error to the caller,
and a listing entry without a `"name"` field makes `list_models` raise a
key error. -/
theorem client_soft_failures_amended :
    (list_models TagsHttp.transportFail = Except.ok []) ∧
    (∀ status models, status ≠ 200 →
      list_models (TagsHttp.resp status models) = Except.ok []) ∧
    (pull_model StreamHttp.transportFail = Except.ok (some false)) ∧
    (∀ status lines, status ≠ 200 →
      pull_model (StreamHttp.resp status lines) = Except.ok (some false)) ∧
    (∀ rest, pull_model (StreamHttp.resp 200 (StreamLine.transportBreak :: rest)) =
      Except.ok (some false)) ∧
    (create_custom_model StreamHttp.transportFail = Except.ok (some false)) ∧
    (∀ status lines, status ≠ 200 →
      create_custom_model (StreamHttp.resp status lines) = Except.ok (some false)) ∧
    (∀ rest, pull_model (StreamHttp.resp 200 (StreamLine.malformed :: rest)) =
      Except.error PyExc.jsonDecode) ∧
    (∀ rest, create_custom_model (StreamHttp.resp 200 (StreamLine.malformed :: rest)) =
      Except.error PyExc.jsonDecode) ∧
    (∀ (pre : List String) (rest : List (Option String)),
      list_models (TagsHttp.resp 200 (pre.map some ++ none :: rest)) =
        Except.error PyExc.keyErr) := by
  refine ⟨rfl, fun status models h => ?_, rfl, fun status lines h => ?_,
    fun rest => rfl, rfl, fun status lines h => ?_, fun rest => rfl, fun rest => rfl,
    fun pre rest => ?_⟩
  · have hb : (status == 200) = false := by simpa using h
    simp [list_models, hb]
  · have hb : (status == 200) = false := by simpa using h
    simp [pull_model, hb]
  · have hb : (status == 200) = false := by simpa using h
    simp [create_custom_model, hb]
  · simpa [list_models] using extractNames_error_of_missing pre rest

/-- Witness for C5 (amended): a 404 pull returns `False`; a listing whose
single entry has no name raises the key error. -/
theorem client_soft_failures_amended_witness :
    pull_model (StreamHttp.resp 404 []) = Except.ok (some false) ∧
    list_models (TagsHttp.resp 200 [none]) = Except.error PyExc.keyErr :=
  ⟨client_soft_failures_amended.2.2.2.1 404 [] (by decide),
   client_soft_failures_amended.2.2.2.2.2.2.2.2.2 [] []⟩

end RunModelOllama
